import Mathlib

/-!
Verification of the Stripe webhook reconciler of `server.js`.

Shallow embedding of the Supabase-backed Stripe integration backend
(`server.js`).  The record store (Supabase) holds two tables, `profiles`
and `subscriptions`; the webhook handler `POST /stripe/webhook`
dispatches on the verified event's `type` and applies upserts/updates to
those tables.  The supabase-js client returns failures in the `error`
field of its result instead of throwing, so store operations are modelled
as total functions on the store state guarded by an `available` flag:
when the store is unavailable every select yields no data (an error
result) and every write leaves the store unchanged, exactly as the
handler — which never inspects `error` — would observe.
-/

/-- A row of the `profiles` table, with the columns the code touches:
`id`, `email`, `stripe_customer_id` (nullable), `plan`. -/
structure Profile where
  id : String
  email : Option String
  stripe_customer_id : Option String
  plan : String
deriving Repr, DecidableEq

/-- A row of the `subscriptions` table, with the columns written by the
webhook handler.  `current_period_end` keeps the raw epoch seconds; the
code stores `new Date(cpe * 1000).toISOString()`, an injective rendering
of the same number, so the epoch value stands for the stored string. -/
structure SubscriptionRow where
  user_id : String
  stripe_customer_id : String
  stripe_subscription_id : String
  price_id : Option String
  status : String
  current_period_end : Option Nat
deriving Repr, DecidableEq

/-- The record store: the two tables plus an availability flag.  When
`available` is `false` every query returns an error result (which the
supabase-js client reports in the `error` field of the awaited value,
without throwing), so selects see no data and writes have no effect. -/
structure Store where
  available : Bool
  profiles : List Profile
  subscriptions : List SubscriptionRow
deriving Repr, DecidableEq

/-- JavaScript truthiness of an optional string, as used by the guards
`if (userId)` and `if (profile?.stripe_customer_id)`: `undefined`/`null`
and the empty string are falsy. -/
def jsTruthy : Option String → Option String
  | some s => if s = "" then none else some s
  | none => none

/-- PostgREST `.single()`: data only when exactly one row matches,
otherwise an error result (observed as `data: null`). -/
def singleProfile (rows : List Profile) : Option Profile :=
  match rows with
  | [p] => some p
  | _ => none

/-- Models the query `supabase.from(profiles).select(...).eq(id, userId).single()`. -/
def selectProfileById (s : Store) (uid : String) : Option Profile :=
  if s.available then
    singleProfile (s.profiles.filter (fun p => p.id = uid))
  else none

/-- Models the query `supabase.from(profiles).select(id).eq(stripe_customer_id, customerId).single()`. -/
def selectProfileByCustomer (s : Store) (cid : String) : Option Profile :=
  if s.available then
    singleProfile (s.profiles.filter (fun p => p.stripe_customer_id = some cid))
  else none

/-- Models the write `supabase.from(profiles).update(plan).eq(id, uid)`. -/
def updateProfilePlan (s : Store) (uid plan : String) : Store :=
  if s.available then
    { s with profiles := s.profiles.map (fun p =>
        if p.id = uid then { p with plan := plan } else p) }
  else s

/-- Models the write `supabase.from(profiles).update(stripe_customer_id).eq(id, uid)`. -/
def updateProfileCustomer (s : Store) (uid cid : String) : Store :=
  if s.available then
    { s with profiles := s.profiles.map (fun p =>
        if p.id = uid then { p with stripe_customer_id := some cid } else p) }
  else s

/-- Models the write `supabase.from(subscriptions).update(status).eq(user_id, uid)`. -/
def updateSubStatus (s : Store) (uid status : String) : Store :=
  if s.available then
    { s with subscriptions := s.subscriptions.map (fun r =>
        if r.user_id = uid then { r with status := status } else r) }
  else s

/-- The `checkout.session.completed` upsert: payload
`user_id, stripe_customer_id, stripe_subscription_id, status=active`
with conflict target `user_id`.  On conflict only the payload columns are
written (`price_id` / `current_period_end` keep their values); otherwise
a fresh row is inserted with the remaining columns null. -/
def upsertCheckoutRow (s : Store) (uid cid subId : String) : Store :=
  if s.available then
    if s.subscriptions.any (fun r => r.user_id = uid) then
      { s with subscriptions := s.subscriptions.map (fun r =>
          if r.user_id = uid then
            { r with stripe_customer_id := cid, stripe_subscription_id := subId,
                     status := "active" }
          else r) }
    else
      { s with subscriptions := s.subscriptions ++
          [{ user_id := uid, stripe_customer_id := cid, stripe_subscription_id := subId,
             price_id := none, status := "active", current_period_end := none }] }
  else s

/-- The `customer.subscription.updated/created` upsert: payload
`{user_id, stripe_customer_id, stripe_subscription_id, price_id, status,
current_period_end}` with conflict target `user_id`. -/
def upsertSubRow (s : Store) (uid cid subId : String) (priceId : Option String)
    (status : String) (cpe : Option Nat) : Store :=
  if s.available then
    if s.subscriptions.any (fun r => r.user_id = uid) then
      { s with subscriptions := s.subscriptions.map (fun r =>
          if r.user_id = uid then
            { r with stripe_customer_id := cid, stripe_subscription_id := subId,
                     price_id := priceId, status := status, current_period_end := cpe }
          else r) }
    else
      { s with subscriptions := s.subscriptions ++
          [{ user_id := uid, stripe_customer_id := cid, stripe_subscription_id := subId,
             price_id := priceId, status := status, current_period_end := cpe }] }
  else s

/-- Models the expression `sub.items?.data?.[0]?.price?.id || null`: the
or-operator turns the empty string (falsy) into `null` as well as an
absent id. -/
def priceOrNull : Option String → Option String
  | some s => if s = "" then none else some s
  | none => none

/-- Models the expression `sub.current_period_end ? new Date(...).toISOString() : null`:
a `current_period_end` of `0` is falsy in JS and yields `null`. -/
def cpeField : Option Nat → Option Nat
  | some n => if n = 0 then none else some n
  | none => none

/-- The verified Stripe events the handler dispatches on; `other` covers
every `event.type` not named in the `switch`. -/
inductive StripeEvent where
  | checkoutCompleted (userId : Option String) (subscriptionId : String) (customerId : String)
  | subscriptionCreated (customerId subId : String) (status : String)
      (priceId : Option String) (currentPeriodEnd : Option Nat)
  | subscriptionUpdated (customerId subId : String) (status : String)
      (priceId : Option String) (currentPeriodEnd : Option Nat)
  | subscriptionDeleted (customerId : String)
  | other (eventType : String)
deriving Repr, DecidableEq

/-- The `if (prof?.id)` correlation lookup shared by the three
`customer.subscription.*` cases: look up the profile by
`stripe_customer_id`, then test `prof?.id` for truthiness. -/
def foundUser (s : Store) (cid : String) : Option Profile :=
  match selectProfileByCustomer s cid with
  | some p => if p.id = "" then none else some p
  | none => none

/-- Body of the `customer.subscription.updated/created` case given a
matched profile. -/
def applySubscriptionChange (s : Store) (cid subId status : String)
    (priceId : Option String) (cpe : Option Nat) : Store :=
  match foundUser s cid with
  | some prof =>
      let s1 := upsertSubRow s prof.id cid subId (priceOrNull priceId) status (cpeField cpe)
      updateProfilePlan s1 prof.id (if status = "active" then "premium" else "free")
  | none => s

/-- Outcome of one webhook delivery after signature verification: the
HTTP status sent and the store state left behind. -/
structure WebhookResult where
  httpStatus : Nat
  store : Store
deriving Repr, DecidableEq

/-- The `switch (event.type)` dispatch of `POST /stripe/webhook`
(`server.js` lines 129–217).  No model operation throws — the
supabase-js client reports failures in its result's `error` field, which
this code never reads — so the `catch`/500 branch is unreachable and
every dispatch ends at `res.json({ received: true })`. -/
def applyEvent (e : StripeEvent) (s : Store) : WebhookResult :=
  match e with
  | .checkoutCompleted userId subId cid =>
      match jsTruthy userId with
      | some uid =>
          let s1 := upsertCheckoutRow s uid cid subId
          let s2 := updateProfilePlan s1 uid "premium"
          ⟨200, s2⟩
      | none => ⟨200, s⟩
  | .subscriptionCreated cid subId status priceId cpe =>
      ⟨200, applySubscriptionChange s cid subId status priceId cpe⟩
  | .subscriptionUpdated cid subId status priceId cpe =>
      ⟨200, applySubscriptionChange s cid subId status priceId cpe⟩
  | .subscriptionDeleted cid =>
      match foundUser s cid with
      | some prof =>
          ⟨200, updateProfilePlan (updateSubStatus s prof.id "canceled") prof.id "free"⟩
      | none => ⟨200, s⟩
  | .other _ => ⟨200, s⟩

/-!
Customer resolution (`getOrCreateStripeCustomer`, `server.js` lines 47-69).

Besides the record store, this path talks to the billing provider:
`stripe.customers.create` mints a fresh, provider-unique customer
identifier.  The provider is modelled by a creation counter and an
injective identifier generator, plus the list of customers created so
far (to count how many billing customers exist for a run).
-/

/-- A fresh provider-assigned customer identifier.  Stripe ids are
opaque and unique per created customer; uniqueness is modelled by an
injective function of the provider's creation counter. -/
def freshCustomerId (n : Nat) : String :=
  "cus_" ++ String.mk (List.replicate n 'x')

/-- State threaded through customer resolution: the record store plus
the billing provider (its creation counter and the customers it has
created, newest last). -/
structure GState where
  store : Store
  nextCustomer : Nat
  created : List String
deriving Repr, DecidableEq

/-- `stripe.customers.create(...)`: returns a fresh id and records the
new billing customer at the provider. -/
def stripeCreateCustomer (g : GState) : String × GState :=
  (freshCustomerId g.nextCustomer,
   { g with nextCustomer := g.nextCustomer + 1,
            created := g.created ++ [freshCustomerId g.nextCustomer] })

/-- `getOrCreateStripeCustomer(userId)` run to completion with no
interleaving: select the profile, return its `stripe_customer_id` if
truthy, else create a Stripe customer, persist the id with an
unconditional `update ... eq(id, userId)`, and return it. -/
def getOrCreateStripeCustomer (uid : String) (g : GState) : String × GState :=
  let profile := selectProfileById g.store uid
  match jsTruthy (profile.bind (fun p => p.stripe_customer_id)) with
  | some cid => (cid, g)
  | none =>
      let (cid, g1) := stripeCreateCustomer g
      (cid, { g1 with store := updateProfileCustomer g1.store uid cid })

/-- Program counter of one in-flight `getOrCreateStripeCustomer` call.
Each constructor boundary is an `await` (select / `customers.create` /
update), where another invocation may interleave. -/
inductive GocPC where
  | start
  | afterSelect (found : Option String)
  | afterCreate (cid : String)
  | done (ret : String)
deriving Repr, DecidableEq

/-- One atomic step of an in-flight call: the select, the early return,
the Stripe customer creation, or the persisting update. -/
def gocStep (uid : String) : GocPC → GState → GocPC × GState
  | .start, g =>
      (.afterSelect (jsTruthy ((selectProfileById g.store uid).bind
        (fun p => p.stripe_customer_id))), g)
  | .afterSelect (some cid), g => (.done cid, g)
  | .afterSelect none, g =>
      let (cid, g1) := stripeCreateCustomer g
      (.afterCreate cid, g1)
  | .afterCreate cid, g =>
      (.done cid, { g with store := updateProfileCustomer g.store uid cid })
  | .done r, g => (.done r, g)

/-- Two concurrent `getOrCreateStripeCustomer(uid)` calls under an
explicit interleaving: each schedule entry picks which call performs its
next atomic step (`false` = first call, `true` = second). -/
def runTwo (uid : String) : List Bool → GocPC × GocPC × GState → GocPC × GocPC × GState
  | [], c => c
  | b :: rest, (pc0, pc1, g) =>
      if b then
        let (pc1', g') := gocStep uid pc1 g
        runTwo uid rest (pc0, pc1', g')
      else
        let (pc0', g') := gocStep uid pc0 g
        runTwo uid rest (pc0', pc1, g')

/-- How many Stripe customers an in-flight call has created so far,
read off its program counter. -/
def gocCost : GocPC → Nat
  | .start => 0
  | .afterSelect _ => 0
  | .afterCreate _ => 1
  | .done _ => 1

/-!
Basic facts about the store operations.
-/

theorem updateProfilePlan_available (s : Store) (uid pl : String) :
    (updateProfilePlan s uid pl).available = s.available := by
  unfold updateProfilePlan; split <;> rfl

theorem updateProfilePlan_subscriptions (s : Store) (uid pl : String) :
    (updateProfilePlan s uid pl).subscriptions = s.subscriptions := by
  unfold updateProfilePlan; split <;> rfl

theorem updateProfileCustomer_available (s : Store) (uid cid : String) :
    (updateProfileCustomer s uid cid).available = s.available := by
  unfold updateProfileCustomer; split <;> rfl

theorem updateProfileCustomer_subscriptions (s : Store) (uid cid : String) :
    (updateProfileCustomer s uid cid).subscriptions = s.subscriptions := by
  unfold updateProfileCustomer; split <;> rfl

theorem updateSubStatus_available (s : Store) (uid st : String) :
    (updateSubStatus s uid st).available = s.available := by
  unfold updateSubStatus; split <;> rfl

theorem updateSubStatus_profiles (s : Store) (uid st : String) :
    (updateSubStatus s uid st).profiles = s.profiles := by
  unfold updateSubStatus; split <;> rfl

theorem upsertSubRow_available (s : Store) (uid cid subId : String)
    (pr : Option String) (st : String) (cpe : Option Nat) :
    (upsertSubRow s uid cid subId pr st cpe).available = s.available := by
  unfold upsertSubRow; split <;> (try split) <;> rfl

theorem upsertSubRow_profiles (s : Store) (uid cid subId : String)
    (pr : Option String) (st : String) (cpe : Option Nat) :
    (upsertSubRow s uid cid subId pr st cpe).profiles = s.profiles := by
  unfold upsertSubRow; split <;> (try split) <;> rfl

theorem upsertCheckoutRow_available (s : Store) (uid cid subId : String) :
    (upsertCheckoutRow s uid cid subId).available = s.available := by
  unfold upsertCheckoutRow; split <;> (try split) <;> rfl

theorem upsertCheckoutRow_profiles (s : Store) (uid cid subId : String) :
    (upsertCheckoutRow s uid cid subId).profiles = s.profiles := by
  unfold upsertCheckoutRow; split <;> (try split) <;> rfl

/-- The correlation lookup only reads `available` and `profiles`. -/
theorem foundUser_congr (s s' : Store) (cid : String)
    (h1 : s'.available = s.available) (h2 : s'.profiles = s.profiles) :
    foundUser s' cid = foundUser s cid := by
  unfold foundUser selectProfileByCustomer
  rw [h1, h2]

/-- `.single()` commutes with a row-wise transformation. -/
theorem singleProfile_map (g : Profile → Profile) (l : List Profile) :
    singleProfile (l.map g) = (singleProfile l).map g := by
  match l with
  | [] => rfl
  | [p] => rfl
  | p :: q :: rest => rfl

/-- A plan update leaves the customer-correlation lookup intact, up to
the plan rewrite on the found row. -/
theorem foundUser_updateProfilePlan (s : Store) (uid pl cid : String) :
    foundUser (updateProfilePlan s uid pl) cid
      = (foundUser s cid).map (fun p => if p.id = uid then { p with plan := pl } else p) := by
  unfold foundUser selectProfileByCustomer updateProfilePlan
  by_cases hav : s.available
  · simp only [hav, if_true]
    rw [List.filter_map]
    have hpred : ((fun p => decide (p.stripe_customer_id = some cid)) ∘
        (fun p => if p.id = uid then { p with plan := pl } else p))
          = (fun p : Profile => decide (p.stripe_customer_id = some cid)) := by
      funext p; by_cases h : p.id = uid <;> simp [h]
    rw [hpred, singleProfile_map]
    cases singleProfile (s.profiles.filter (fun p => p.stripe_customer_id = some cid)) with
    | none => rfl
    | some p =>
        by_cases h : p.id = uid <;> by_cases h2 : p.id = "" <;> simp_all
  · simp [hav]

theorem singleProfile_eq_some (l : List Profile) (p : Profile)
    (h : singleProfile l = some p) : l = [p] := by
  match l, h with
  | [q], h => unfold singleProfile at h; simp_all

/-- What a successful `if (prof?.id)` correlation tells us about the
store: it is available, exactly one profile row carries the customer id,
and that row's `id` is non-empty. -/
theorem foundUser_spec (s : Store) (cid : String) (p : Profile)
    (h : foundUser s cid = some p) :
    s.available = true
      ∧ s.profiles.filter (fun q => q.stripe_customer_id = some cid) = [p]
      ∧ p ∈ s.profiles ∧ ¬ p.id = "" := by
  unfold foundUser selectProfileByCustomer at h
  by_cases hav : s.available
  · simp only [hav, if_true] at h
    cases hm : singleProfile (s.profiles.filter (fun q => q.stripe_customer_id = some cid)) with
    | none => rw [hm] at h; exact absurd h (by simp)
    | some q =>
        rw [hm] at h
        by_cases hq : q.id = ""
        · simp [hq] at h
        · simp only [hq, if_false] at h
          cases h
          have hfil := singleProfile_eq_some _ _ hm
          exact ⟨hav, hfil, List.mem_of_mem_filter (hfil ▸ List.mem_singleton_self p), hq⟩
  · simp [hav] at h

theorem updateProfilePlan_plan_of_mem (s : Store) (uid pl : String)
    (hav : s.available = true) :
    ∀ q ∈ (updateProfilePlan s uid pl).profiles, q.id = uid → q.plan = pl := by
  unfold updateProfilePlan
  simp only [hav, if_true]
  intro q hq
  rcases List.mem_map.1 hq with ⟨q', _, rfl⟩
  by_cases h : q'.id = uid <;> simp [h]

theorem updateProfilePlan_exists (s : Store) (uid pl : String)
    (hav : s.available = true) (hex : ∃ q ∈ s.profiles, q.id = uid) :
    ∃ q ∈ (updateProfilePlan s uid pl).profiles, q.id = uid ∧ q.plan = pl := by
  unfold updateProfilePlan
  simp only [hav, if_true]
  rcases hex with ⟨q, hq, hid⟩
  refine ⟨{ q with plan := pl }, ?_, hid, rfl⟩
  have : (fun p : Profile => if p.id = uid then { p with plan := pl } else p) q
      = { q with plan := pl } := by simp [hid]
  exact this ▸ List.mem_map_of_mem _ hq

/-- A profile update whose `eq(id, uid)` filter matches no row leaves
the store untouched. -/
theorem updateProfilePlan_noop (s : Store) (uid pl : String)
    (h : ∀ q ∈ s.profiles, ¬ q.id = uid) :
    updateProfilePlan s uid pl = s := by
  unfold updateProfilePlan
  split
  · have : s.profiles.map (fun p => if p.id = uid then { p with plan := pl } else p)
        = s.profiles := by
      rw [List.map_congr_left (g := id) (fun a ha => by simp [h a ha]), List.map_id]
    rw [this]
  · rfl

theorem updateProfileCustomer_noop (s : Store) (uid cid : String)
    (h : ∀ q ∈ s.profiles, ¬ q.id = uid) :
    updateProfileCustomer s uid cid = s := by
  unfold updateProfileCustomer
  split
  · have : s.profiles.map
        (fun p => if p.id = uid then { p with stripe_customer_id := some cid } else p)
        = s.profiles := by
      rw [List.map_congr_left (g := id) (fun a ha => by simp [h a ha]), List.map_id]
    rw [this]
  · rfl

theorem updateSubStatus_status_of_mem (s : Store) (uid st : String)
    (hav : s.available = true) :
    ∀ r ∈ (updateSubStatus s uid st).subscriptions, r.user_id = uid → r.status = st := by
  unfold updateSubStatus
  simp only [hav, if_true]
  intro r hr
  rcases List.mem_map.1 hr with ⟨r', _, rfl⟩
  by_cases h : r'.user_id = uid <;> simp [h]

theorem updateSubStatus_exists (s : Store) (uid st : String)
    (hex : ∃ r ∈ s.subscriptions, r.user_id = uid) :
    ∃ r ∈ (updateSubStatus s uid st).subscriptions, r.user_id = uid := by
  unfold updateSubStatus
  split
  · rcases hex with ⟨r, hr, hid⟩
    refine ⟨{ r with status := st }, ?_, hid⟩
    have : (fun x : SubscriptionRow => if x.user_id = uid then { x with status := st } else x) r
        = { r with status := st } := by simp [hid]
    exact this ▸ List.mem_map_of_mem _ hr
  · exact hex

/-- Logical deletion: updating the status keeps every row's key, so no
Subscription Record is physically removed. -/
theorem updateSubStatus_user_ids (s : Store) (uid st : String) :
    (updateSubStatus s uid st).subscriptions.map (fun r => r.user_id)
      = s.subscriptions.map (fun r => r.user_id) := by
  unfold updateSubStatus
  split
  · rw [List.map_map]
    exact List.map_congr_left (fun r _ => by by_cases h : r.user_id = uid <;> simp [h])
  · rfl

theorem upsertSubRow_fields_of_mem (s : Store) (uid cid subId : String)
    (pr : Option String) (st : String) (cpe : Option Nat)
    (hav : s.available = true) :
    ∀ r ∈ (upsertSubRow s uid cid subId pr st cpe).subscriptions, r.user_id = uid →
      r.stripe_customer_id = cid ∧ r.stripe_subscription_id = subId
        ∧ r.price_id = pr ∧ r.status = st ∧ r.current_period_end = cpe := by
  unfold upsertSubRow
  simp only [hav, if_true]
  split
  · intro r hr
    rcases List.mem_map.1 hr with ⟨r', _, rfl⟩
    by_cases h : r'.user_id = uid <;> simp [h]
  · rename_i hany
    intro r hr hid
    rcases List.mem_append.1 hr with h | h
    · exact absurd (List.any_eq_true.2 ⟨r, h, by simp [hid]⟩) hany
    · rw [List.mem_singleton] at h
      subst h
      exact ⟨rfl, rfl, rfl, rfl, rfl⟩

theorem upsertSubRow_exists (s : Store) (uid cid subId : String)
    (pr : Option String) (st : String) (cpe : Option Nat)
    (hav : s.available = true) :
    ∃ r ∈ (upsertSubRow s uid cid subId pr st cpe).subscriptions, r.user_id = uid := by
  unfold upsertSubRow
  simp only [hav, if_true]
  split
  · rename_i hany
    rcases List.any_eq_true.1 hany with ⟨r, hr, hid⟩
    simp only [decide_eq_true_eq] at hid
    exact ⟨_, List.mem_map_of_mem _ hr, by simp [hid]⟩
  · exact ⟨_, List.mem_append_right _ (List.mem_singleton.2 rfl), rfl⟩

theorem upsertCheckoutRow_fields_of_mem (s : Store) (uid cid subId : String)
    (hav : s.available = true) :
    ∀ r ∈ (upsertCheckoutRow s uid cid subId).subscriptions, r.user_id = uid →
      r.stripe_customer_id = cid ∧ r.stripe_subscription_id = subId ∧ r.status = "active" := by
  unfold upsertCheckoutRow
  simp only [hav, if_true]
  split
  · intro r hr
    rcases List.mem_map.1 hr with ⟨r', _, rfl⟩
    by_cases h : r'.user_id = uid <;> simp [h]
  · rename_i hany
    intro r hr hid
    rcases List.mem_append.1 hr with h | h
    · exact absurd (List.any_eq_true.2 ⟨r, h, by simp [hid]⟩) hany
    · rw [List.mem_singleton] at h
      subst h
      exact ⟨rfl, rfl, rfl⟩

theorem upsertCheckoutRow_exists (s : Store) (uid cid subId : String)
    (hav : s.available = true) :
    ∃ r ∈ (upsertCheckoutRow s uid cid subId).subscriptions, r.user_id = uid := by
  unfold upsertCheckoutRow
  simp only [hav, if_true]
  split
  · rename_i hany
    rcases List.any_eq_true.1 hany with ⟨r, hr, hid⟩
    simp only [decide_eq_true_eq] at hid
    exact ⟨_, List.mem_map_of_mem _ hr, by simp [hid]⟩
  · exact ⟨_, List.mem_append_right _ (List.mem_singleton.2 rfl), rfl⟩

/-!
Claim theorems.
-/

/-- C9: for every verified event whose kind is not one of
`checkout_completed` / `subscription_created` / `subscription_updated` /
`subscription_deleted`, the webhook handler falls through the `default`
case, responds 200 `{received: true}`, and causes no record mutation. -/
theorem C9_unknown_kind_noop (kind : String) (s : Store) :
    applyEvent (StripeEvent.other kind) s = ⟨200, s⟩ := rfl

/-- C2: contrary to the claim, the webhook dispatch responds 200 for
every event and every store state, including an unavailable store whose
upserts/updates all fail: the supabase-js client reports store failures
in the `error` field of its awaited result instead of throwing, the
handler never reads that field, and the `catch` → 500 branch only fires
on a thrown exception.  A store outage is therefore acknowledged with
200 and the provider never redelivers the event. -/
theorem C2_webhook_always_200 (e : StripeEvent) (s : Store) :
    (applyEvent e s).httpStatus = 200 := by
  cases e with
  | checkoutCompleted userId subId cid =>
      cases h : jsTruthy userId <;> simp [applyEvent, h]
  | subscriptionCreated cid subId st pr cpe => rfl
  | subscriptionUpdated cid subId st pr cpe => rfl
  | subscriptionDeleted cid =>
      cases h : foundUser s cid <;> simp [applyEvent, h]
  | other k => rfl

/-- C8: a `customer.subscription.updated/created/deleted` event whose
customer identifier matches no profile row takes the `if (prof?.id)`
else-path: the handler responds 200 and the store is unchanged. -/
theorem C8_unmatched_customer_noop (cid subId status : String)
    (priceId : Option String) (cpe : Option Nat) (s : Store)
    (h : ∀ p ∈ s.profiles, ¬ p.stripe_customer_id = some cid) :
    applyEvent (StripeEvent.subscriptionUpdated cid subId status priceId cpe) s = ⟨200, s⟩
    ∧ applyEvent (StripeEvent.subscriptionCreated cid subId status priceId cpe) s = ⟨200, s⟩
    ∧ applyEvent (StripeEvent.subscriptionDeleted cid) s = ⟨200, s⟩ := by
  have hf : foundUser s cid = none := by
    unfold foundUser selectProfileByCustomer
    have hfil : s.profiles.filter (fun p => p.stripe_customer_id = some cid) = [] :=
      List.filter_eq_nil_iff.2 (by intro p hp; simpa using h p hp)
    by_cases hav : s.available <;> simp [hav, hfil, singleProfile]
  exact ⟨by simp [applyEvent, applySubscriptionChange, hf],
    by simp [applyEvent, applySubscriptionChange, hf],
    by simp [applyEvent, hf]⟩

/-- Witness for C8: the spec's own example, `subscription_updated` with
`cus_missing` against a store linking `u1` to `cus_1`. -/
theorem C8_unmatched_customer_noop_witness :
    applyEvent (StripeEvent.subscriptionUpdated "cus_missing" "sub_1" "active" none none)
        ⟨true, [⟨"u1", none, some "cus_1", "free"⟩], []⟩
      = ⟨200, ⟨true, [⟨"u1", none, some "cus_1", "free"⟩], []⟩⟩ :=
  (C8_unmatched_customer_noop "cus_missing" "sub_1" "active" none none
    ⟨true, [⟨"u1", none, some "cus_1", "free"⟩], []⟩ (by decide)).1

/-- C1 (counterexample): a `customer.subscription.updated` event with
status `trialing` for the linked customer `cus_1` leaves the profile
plan `free`, not `premium` as the claim's paid-access set `{active,
trialing}` requires — the code's ternary only recognizes `active`. -/
theorem C1_counterexample :
    ((applyEvent (StripeEvent.subscriptionUpdated "cus_1" "sub_1" "trialing" none none)
        ⟨true, [⟨"u1", none, some "cus_1", "free"⟩], []⟩).store.profiles.map Profile.plan
      = ["free"])
    ∧ ("free" : String) ≠ "premium" := ⟨rfl, by decide⟩

/-- C1 (amended): for every `subscription_updated` or
`subscription_created` event matched to a known user, the plan tier
persisted to that user's profile is `premium` exactly when the event's
status is `active`, and `free` for every other status (`trialing`
included). -/
theorem C1_plan_tier (isUpdate : Bool) (cid subId status : String)
    (priceId : Option String) (cpe : Option Nat) (s : Store) (p : Profile)
    (h : foundUser s cid = some p) :
    (∀ q ∈ ((applyEvent (if isUpdate then
          StripeEvent.subscriptionUpdated cid subId status priceId cpe
        else StripeEvent.subscriptionCreated cid subId status priceId cpe) s).store).profiles,
      q.id = p.id → q.plan = (if status = "active" then "premium" else "free"))
    ∧ ∃ q ∈ ((applyEvent (if isUpdate then
          StripeEvent.subscriptionUpdated cid subId status priceId cpe
        else StripeEvent.subscriptionCreated cid subId status priceId cpe) s).store).profiles,
      q.id = p.id ∧ q.plan = (if status = "active" then "premium" else "free") := by
  obtain ⟨hav, hfil, hmem, hne⟩ := foundUser_spec s cid p h
  have hdisp : ((applyEvent (if isUpdate then
        StripeEvent.subscriptionUpdated cid subId status priceId cpe
      else StripeEvent.subscriptionCreated cid subId status priceId cpe) s).store)
      = updateProfilePlan
          (upsertSubRow s p.id cid subId (priceOrNull priceId) status (cpeField cpe))
          p.id (if status = "active" then "premium" else "free") := by
    cases isUpdate <;> simp [applyEvent, applySubscriptionChange, h]
  rw [hdisp]
  have hav1 : (upsertSubRow s p.id cid subId (priceOrNull priceId) status
      (cpeField cpe)).available = true := by
    rw [upsertSubRow_available]; exact hav
  constructor
  · exact updateProfilePlan_plan_of_mem _ p.id _ hav1
  · exact updateProfilePlan_exists _ p.id _ hav1
      ⟨p, by rw [upsertSubRow_profiles]; exact hmem, rfl⟩

/-- Witness for C1: the trialing case evaluated on a one-profile store. -/
theorem C1_plan_tier_witness :
    ∃ q ∈ ((applyEvent (StripeEvent.subscriptionUpdated "cus_1" "sub_1" "trialing" none none)
        ⟨true, [⟨"u1", none, some "cus_1", "premium"⟩], []⟩).store).profiles,
      q.id = "u1" ∧ q.plan = "free" :=
  (C1_plan_tier true "cus_1" "sub_1" "trialing" none none
    ⟨true, [⟨"u1", none, some "cus_1", "premium"⟩], []⟩
    ⟨"u1", none, some "cus_1", "premium"⟩ (by decide)).2

/-- C7: a `customer.subscription.deleted` event matched to a known user
sets every Subscription Record of that user to status `canceled`, sets
the profile plan to `free`, and removes no subscription row (the row
keys before and after coincide — logical, not physical, deletion). -/
theorem C7_subscription_deleted (cid : String) (s : Store) (p : Profile)
    (h : foundUser s cid = some p) :
    (∀ r ∈ (applyEvent (StripeEvent.subscriptionDeleted cid) s).store.subscriptions,
        r.user_id = p.id → r.status = "canceled")
    ∧ (applyEvent (StripeEvent.subscriptionDeleted cid) s).store.subscriptions.map
        (fun r => r.user_id) = s.subscriptions.map (fun r => r.user_id)
    ∧ (∀ q ∈ (applyEvent (StripeEvent.subscriptionDeleted cid) s).store.profiles,
        q.id = p.id → q.plan = "free")
    ∧ ∃ q ∈ (applyEvent (StripeEvent.subscriptionDeleted cid) s).store.profiles,
        q.id = p.id ∧ q.plan = "free" := by
  obtain ⟨hav, hfil, hmem, hne⟩ := foundUser_spec s cid p h
  have hdisp : (applyEvent (StripeEvent.subscriptionDeleted cid) s).store
      = updateProfilePlan (updateSubStatus s p.id "canceled") p.id "free" := by
    simp [applyEvent, h]
  rw [hdisp]
  have hav1 : (updateSubStatus s p.id "canceled").available = true := by
    rw [updateSubStatus_available]; exact hav
  refine ⟨?_, ?_, ?_, ?_⟩
  · intro r hr
    rw [updateProfilePlan_subscriptions] at hr
    exact updateSubStatus_status_of_mem s p.id "canceled" hav r hr
  · rw [updateProfilePlan_subscriptions, updateSubStatus_user_ids]
  · exact updateProfilePlan_plan_of_mem _ p.id _ hav1
  · exact updateProfilePlan_exists _ p.id _ hav1
      ⟨p, by rw [updateSubStatus_profiles]; exact hmem, rfl⟩

/-- Witness for C7: deletion for `cus_1` evaluated on a store with one
linked profile and one active subscription row. -/
theorem C7_subscription_deleted_witness :
    (applyEvent (StripeEvent.subscriptionDeleted "cus_1")
        ⟨true, [⟨"u1", none, some "cus_1", "premium"⟩],
          [⟨"u1", "cus_1", "sub_1", none, "active", none⟩]⟩).store.subscriptions.map
      (fun r => r.user_id)
    = [⟨"u1", "cus_1", "sub_1", none, "active", none⟩].map
        (fun r : SubscriptionRow => r.user_id) :=
  (C7_subscription_deleted "cus_1"
    ⟨true, [⟨"u1", none, some "cus_1", "premium"⟩],
      [⟨"u1", "cus_1", "sub_1", none, "active", none⟩]⟩
    ⟨"u1", none, some "cus_1", "premium"⟩ (by decide)).2.1

theorem updateProfilePlan_unavail (s : Store) (uid pl : String)
    (h : s.available = false) : updateProfilePlan s uid pl = s := by
  unfold updateProfilePlan; simp [h]

theorem upsertCheckoutRow_unavail (s : Store) (uid cid subId : String)
    (h : s.available = false) : upsertCheckoutRow s uid cid subId = s := by
  unfold upsertCheckoutRow; simp [h]

/-- A plan update is a fixpoint once every targeted row already carries
the plan being written. -/
theorem updateProfilePlan_idem_of (s : Store) (uid pl : String)
    (h : ∀ q ∈ s.profiles, q.id = uid → q.plan = pl) :
    updateProfilePlan s uid pl = s := by
  unfold updateProfilePlan
  split
  · have hcong : ∀ q ∈ s.profiles,
        (fun p : Profile => if p.id = uid then { p with plan := pl } else p) q = id q := by
      intro q hq
      by_cases hid : q.id = uid
      · have hpl := h q hq hid
        cases q; simp_all
      · simp [hid]
    rw [List.map_congr_left hcong, List.map_id]
  · rfl

/-- The checkout upsert is a fixpoint once a row for the user exists and
already carries the payload values. -/
theorem upsertCheckoutRow_idem_of (s : Store) (uid cid subId : String)
    (hex : ∃ r ∈ s.subscriptions, r.user_id = uid)
    (h : ∀ r ∈ s.subscriptions, r.user_id = uid →
      r.stripe_customer_id = cid ∧ r.stripe_subscription_id = subId ∧ r.status = "active") :
    upsertCheckoutRow s uid cid subId = s := by
  unfold upsertCheckoutRow
  split
  · split
    · have hcong : ∀ r ∈ s.subscriptions,
          (fun r : SubscriptionRow => if r.user_id = uid then { r with stripe_customer_id := cid, stripe_subscription_id := subId, status := "active" } else r) r = id r := by
        intro r hr
        by_cases hid : r.user_id = uid
        · obtain ⟨h1, h2, h3⟩ := h r hr hid
          cases r; simp_all
        · simp [hid]
      rw [List.map_congr_left hcong, List.map_id]
    · rename_i hany
      exfalso
      rcases hex with ⟨r, hr, hid⟩
      exact hany (List.any_eq_true.2 ⟨r, hr, by simp [hid]⟩)
  · rfl

/-- C3: applying the same `checkout.session.completed` event twice,
from any store state, produces exactly the outcome of applying it once —
the second upsert rewrites values already present and the second plan
update rewrites `premium` over `premium`. -/
theorem C3_checkout_idempotent (userId : Option String) (subId cid : String) (s : Store) :
    applyEvent (StripeEvent.checkoutCompleted userId subId cid)
        ((applyEvent (StripeEvent.checkoutCompleted userId subId cid) s).store)
      = applyEvent (StripeEvent.checkoutCompleted userId subId cid) s := by
  cases hu : jsTruthy userId with
  | none => simp [applyEvent, hu]
  | some uid =>
      simp only [applyEvent, hu]
      cases hav : s.available with
      | false =>
          rw [upsertCheckoutRow_unavail s uid cid subId hav,
            updateProfilePlan_unavail s uid "premium" hav,
            upsertCheckoutRow_unavail s uid cid subId hav,
            updateProfilePlan_unavail s uid "premium" hav]
      | true =>
          have hav1 : (upsertCheckoutRow s uid cid subId).available = true := by
            rw [upsertCheckoutRow_available]; exact hav
          have hav2 : (updateProfilePlan (upsertCheckoutRow s uid cid subId)
              uid "premium").available = true := by
            rw [updateProfilePlan_available]; exact hav1
          have hsub2 : (updateProfilePlan (upsertCheckoutRow s uid cid subId)
                uid "premium").subscriptions
              = (upsertCheckoutRow s uid cid subId).subscriptions :=
            updateProfilePlan_subscriptions _ _ _
          have hup : upsertCheckoutRow (updateProfilePlan (upsertCheckoutRow s uid cid subId)
              uid "premium") uid cid subId
              = updateProfilePlan (upsertCheckoutRow s uid cid subId) uid "premium" := by
            apply upsertCheckoutRow_idem_of
            · rw [hsub2]; exact upsertCheckoutRow_exists s uid cid subId hav
            · intro r hr
              rw [hsub2] at hr
              exact upsertCheckoutRow_fields_of_mem s uid cid subId hav r hr
          rw [hup]
          rw [updateProfilePlan_idem_of _ uid "premium"
            (updateProfilePlan_plan_of_mem (upsertCheckoutRow s uid cid subId)
              uid "premium" hav1)]

/-- C5 (counterexample): a `checkout.session.completed` event whose
metadata userId is present but matches no known user is not a no-op: the
`if (userId)` guard passes and the upsert inserts a subscriptions row
keyed by the unknown identifier. -/
theorem C5_counterexample :
    (applyEvent (StripeEvent.checkoutCompleted (some "u_ghost") "sub_1" "cus_1")
        ⟨true, [], []⟩).store.subscriptions.length = 1
    ∧ (⟨true, [], []⟩ : Store).subscriptions.length = 0
    ∧ (applyEvent (StripeEvent.checkoutCompleted (some "u_ghost") "sub_1" "cus_1")
        ⟨true, [], []⟩).store ≠ ⟨true, [], []⟩ := by decide

/-- C5 (amended): the handler always answers 200; when the correlation
token is absent (or empty) nothing is mutated; when the token is present
but matches no profile, the profiles table is untouched (the plan update
matches no row) yet a Subscription Record keyed by the token is still
upserted with status `active` whenever the store is available. -/
theorem C5_checkout_unknown_token (userId : Option String) (subId cid : String) (s : Store) :
    (applyEvent (StripeEvent.checkoutCompleted userId subId cid) s).httpStatus = 200
    ∧ (jsTruthy userId = none →
        applyEvent (StripeEvent.checkoutCompleted userId subId cid) s = ⟨200, s⟩)
    ∧ ∀ uid, jsTruthy userId = some uid → (∀ p ∈ s.profiles, ¬ p.id = uid) →
        (applyEvent (StripeEvent.checkoutCompleted userId subId cid) s).store.profiles
            = s.profiles
        ∧ (s.available = true →
            ∃ r ∈ (applyEvent (StripeEvent.checkoutCompleted userId subId cid)
                s).store.subscriptions, r.user_id = uid ∧ r.status = "active") := by
  refine ⟨?_, ?_, ?_⟩
  · cases hu : jsTruthy userId <;> simp [applyEvent, hu]
  · intro hu; simp [applyEvent, hu]
  · intro uid hu hnone
    simp only [applyEvent, hu]
    constructor
    · rw [updateProfilePlan_noop _ _ _
        (by rw [upsertCheckoutRow_profiles]; exact hnone), upsertCheckoutRow_profiles]
    · intro hav
      rcases upsertCheckoutRow_exists s uid cid subId hav with ⟨r, hr, hid⟩
      have hf := upsertCheckoutRow_fields_of_mem s uid cid subId hav r hr hid
      exact ⟨r, by rw [updateProfilePlan_subscriptions]; exact hr, hid, hf.2.2⟩

/-- Witness for C5: the unknown-token branch evaluated on the empty
store. -/
theorem C5_checkout_unknown_token_witness :
    (applyEvent (StripeEvent.checkoutCompleted (some "u9") "sub_1" "cus_1")
        ⟨true, [], []⟩).store.profiles = [] :=
  ((C5_checkout_unknown_token (some "u9") "sub_1" "cus_1" ⟨true, [], []⟩).2.2 "u9"
    (by decide) (by decide)).1

theorem foundUser_upsertSubRow (s : Store) (uid cid subId : String) (pr : Option String)
    (st : String) (cpe : Option Nat) (c : String) :
    foundUser (upsertSubRow s uid cid subId pr st cpe) c = foundUser s c :=
  foundUser_congr _ _ _ (upsertSubRow_available _ _ _ _ _ _ _)
    (upsertSubRow_profiles _ _ _ _ _ _ _)

theorem foundUser_updateSubStatus (s : Store) (uid st c : String) :
    foundUser (updateSubStatus s uid st) c = foundUser s c :=
  foundUser_congr _ _ _ (updateSubStatus_available _ _ _) (updateSubStatus_profiles _ _ _)

/-- After the handler rewrites the found user's plan, the same customer
lookup still finds the same row, with only the plan changed. -/
theorem foundUser_after_plan (s : Store) (cid pl : String) (p : Profile)
    (h : foundUser s cid = some p) :
    foundUser (updateProfilePlan s p.id pl) cid = some { p with plan := pl } := by
  rw [foundUser_updateProfilePlan, h]
  simp

theorem applyEvent_deleted_of_found (cid : String) (s : Store) (p : Profile)
    (h : foundUser s cid = some p) :
    (applyEvent (StripeEvent.subscriptionDeleted cid) s).store
      = updateProfilePlan (updateSubStatus s p.id "canceled") p.id "free" := by
  simp [applyEvent, h]

theorem applyEvent_updated_of_found (cid subId st : String) (pr : Option String)
    (cpe : Option Nat) (s : Store) (p : Profile) (h : foundUser s cid = some p) :
    (applyEvent (StripeEvent.subscriptionUpdated cid subId st pr cpe) s).store
      = updateProfilePlan
          (upsertSubRow s p.id cid subId (priceOrNull pr) st (cpeField cpe))
          p.id (if st = "active" then "premium" else "free") := by
  simp [applyEvent, applySubscriptionChange, h]

/-- C6: for a user with an established Customer Link,
`subscription_updated(status=active)` followed by `subscription_deleted`
leaves every Subscription Record of the user at status `canceled`, while
the reverse order leaves it at status `active` — the handlers apply
events in delivery order with no staleness guard. -/
theorem C6_order_dependence (cid subId : String) (priceId : Option String)
    (cpe : Option Nat) (s : Store) (p : Profile)
    (h : foundUser s cid = some p) :
    ((∀ r ∈ (applyEvent (StripeEvent.subscriptionDeleted cid)
          ((applyEvent (StripeEvent.subscriptionUpdated cid subId "active" priceId cpe)
            s).store)).store.subscriptions, r.user_id = p.id → r.status = "canceled")
      ∧ ∃ r ∈ (applyEvent (StripeEvent.subscriptionDeleted cid)
          ((applyEvent (StripeEvent.subscriptionUpdated cid subId "active" priceId cpe)
            s).store)).store.subscriptions, r.user_id = p.id)
    ∧ (∀ r ∈ (applyEvent (StripeEvent.subscriptionUpdated cid subId "active" priceId cpe)
          ((applyEvent (StripeEvent.subscriptionDeleted cid) s).store)).store.subscriptions,
        r.user_id = p.id → r.status = "active")
      ∧ ∃ r ∈ (applyEvent (StripeEvent.subscriptionUpdated cid subId "active" priceId cpe)
          ((applyEvent (StripeEvent.subscriptionDeleted cid) s).store)).store.subscriptions,
        r.user_id = p.id := by
  obtain ⟨hav, hfil, hmem, hne⟩ := foundUser_spec s cid p h
  have hA1 := applyEvent_updated_of_found cid subId "active" priceId cpe s p h
  have hfound1 : foundUser ((applyEvent (StripeEvent.subscriptionUpdated cid subId
      "active" priceId cpe) s).store) cid
      = some { p with plan := if "active" = "active" then "premium" else "free" } := by
    rw [hA1]
    exact foundUser_after_plan _ cid _ p (by rw [foundUser_upsertSubRow]; exact h)
  have hdelA := applyEvent_deleted_of_found cid _ _ hfound1
  have havA : ((applyEvent (StripeEvent.subscriptionUpdated cid subId "active" priceId
      cpe) s).store).available = true := by
    rw [hA1, updateProfilePlan_available, upsertSubRow_available]; exact hav
  have hexA : ∃ r ∈ ((applyEvent (StripeEvent.subscriptionUpdated cid subId "active"
      priceId cpe) s).store).subscriptions, r.user_id = p.id := by
    rw [hA1, updateProfilePlan_subscriptions]
    exact upsertSubRow_exists s p.id cid subId (priceOrNull priceId) "active"
      (cpeField cpe) hav
  have hdelB := applyEvent_deleted_of_found cid s p h
  have hfoundB : foundUser ((applyEvent (StripeEvent.subscriptionDeleted cid) s).store)
      cid = some { p with plan := "free" } := by
    rw [hdelB]
    exact foundUser_after_plan _ cid _ p (by rw [foundUser_updateSubStatus]; exact h)
  have hB2 := applyEvent_updated_of_found cid subId "active" priceId cpe _ _ hfoundB
  have havB : ((applyEvent (StripeEvent.subscriptionDeleted cid) s).store).available
      = true := by
    rw [hdelB, updateProfilePlan_available, updateSubStatus_available]; exact hav
  refine ⟨⟨?_, ?_⟩, ?_, ?_⟩
  · intro r hr
    rw [hdelA, updateProfilePlan_subscriptions] at hr
    exact updateSubStatus_status_of_mem _ _ "canceled" havA r hr
  · rw [hdelA, updateProfilePlan_subscriptions]
    exact updateSubStatus_exists _ _ "canceled" hexA
  · intro r hr
    rw [hB2, updateProfilePlan_subscriptions] at hr
    intro hid
    exact (upsertSubRow_fields_of_mem _ _ cid subId (priceOrNull priceId) "active"
      (cpeField cpe) havB r hr hid).2.2.2.1
  · rw [hB2, updateProfilePlan_subscriptions]
    exact upsertSubRow_exists _ _ cid subId (priceOrNull priceId) "active"
      (cpeField cpe) havB

/-- Witness for C6: both orders evaluated on a store with one linked
profile and no subscription rows. -/
theorem C6_order_dependence_witness :
    (∃ r ∈ (applyEvent (StripeEvent.subscriptionDeleted "cus_1")
        ((applyEvent (StripeEvent.subscriptionUpdated "cus_1" "sub_1" "active" none none)
          ⟨true, [⟨"u1", none, some "cus_1", "free"⟩], []⟩).store)).store.subscriptions,
        r.user_id = "u1")
    ∧ ∃ r ∈ (applyEvent (StripeEvent.subscriptionUpdated "cus_1" "sub_1" "active" none none)
        ((applyEvent (StripeEvent.subscriptionDeleted "cus_1")
          ⟨true, [⟨"u1", none, some "cus_1", "free"⟩], []⟩).store)).store.subscriptions,
        r.user_id = "u1" :=
  ⟨(C6_order_dependence "cus_1" "sub_1" none none
      ⟨true, [⟨"u1", none, some "cus_1", "free"⟩], []⟩
      ⟨"u1", none, some "cus_1", "free"⟩ (by decide)).1.2,
   (C6_order_dependence "cus_1" "sub_1" none none
      ⟨true, [⟨"u1", none, some "cus_1", "free"⟩], []⟩
      ⟨"u1", none, some "cus_1", "free"⟩ (by decide)).2.2⟩


theorem gocCost_le_one (pc : GocPC) : gocCost pc ≤ 1 := by
  cases pc <;> simp [gocCost]

/-- Each atomic step grows the provider's customer list by at most the
growth of the step's creation count. -/
theorem gocStep_created_le (uid : String) (pc : GocPC) (g : GState) :
    (gocStep uid pc g).2.created.length + gocCost pc
      ≤ g.created.length + gocCost (gocStep uid pc g).1 := by
  cases pc with
  | start => simp [gocStep, gocCost]
  | afterSelect found =>
      cases found <;> simp [gocStep, gocCost, stripeCreateCustomer]
  | afterCreate cid => simp [gocStep, gocCost]
  | done r => simp [gocStep, gocCost]

theorem filter_length_updateProfileCustomer (s : Store) (uid cid u : String) :
    ((updateProfileCustomer s uid cid).profiles.filter (fun p => p.id = u)).length
      = (s.profiles.filter (fun p => p.id = u)).length := by
  unfold updateProfileCustomer
  split
  · have hpred : ((fun p : Profile => decide (p.id = u)) ∘
        (fun p => if p.id = uid then { p with stripe_customer_id := some cid } else p))
          = (fun p : Profile => decide (p.id = u)) := by
      funext p; by_cases h : p.id = uid <;> simp [h]
    show ((s.profiles.map _).filter _).length = _
    rw [List.filter_map, hpred, List.length_map]
  · rfl

/-- No step of a call inserts or deletes profile rows. -/
theorem gocStep_profiles_filter (uid u : String) (pc : GocPC) (g : GState) :
    (((gocStep uid pc g).2.store.profiles.filter (fun p => p.id = u)).length)
      = ((g.store.profiles.filter (fun p => p.id = u)).length) := by
  cases pc with
  | start => rfl
  | afterSelect found => cases found <;> rfl
  | afterCreate cid => exact filter_length_updateProfileCustomer g.store uid cid u
  | done r => rfl

theorem runTwo_cons_false (uid : String) (rest : List Bool) (pc0 pc1 : GocPC) (g : GState) :
    runTwo uid (false :: rest) (pc0, pc1, g)
      = runTwo uid rest ((gocStep uid pc0 g).1, pc1, (gocStep uid pc0 g).2) := by
  cases hsg : gocStep uid pc0 g with
  | mk a b => simp [runTwo, hsg]

theorem runTwo_cons_true (uid : String) (rest : List Bool) (pc0 pc1 : GocPC) (g : GState) :
    runTwo uid (true :: rest) (pc0, pc1, g)
      = runTwo uid rest (pc0, (gocStep uid pc1 g).1, (gocStep uid pc1 g).2) := by
  cases hsg : gocStep uid pc1 g with
  | mk a b => simp [runTwo, hsg]

theorem runTwo_created_le (uid : String) :
    ∀ (sched : List Bool) (pc0 pc1 : GocPC) (g : GState),
      (runTwo uid sched (pc0, pc1, g)).2.2.created.length + gocCost pc0 + gocCost pc1
        ≤ g.created.length + gocCost (runTwo uid sched (pc0, pc1, g)).1
            + gocCost (runTwo uid sched (pc0, pc1, g)).2.1
  | [], pc0, pc1, g => by simp [runTwo]
  | b :: rest, pc0, pc1, g => by
      cases b with
      | false =>
          rw [runTwo_cons_false]
          cases hsg : gocStep uid pc0 g with
          | mk pc0' g' =>
              dsimp only
              have hstep := gocStep_created_le uid pc0 g
              rw [hsg] at hstep
              dsimp only at hstep
              have ih := runTwo_created_le uid rest pc0' pc1 g'
              omega
      | true =>
          rw [runTwo_cons_true]
          cases hsg : gocStep uid pc1 g with
          | mk pc1' g' =>
              dsimp only
              have hstep := gocStep_created_le uid pc1 g
              rw [hsg] at hstep
              dsimp only at hstep
              have ih := runTwo_created_le uid rest pc0 pc1' g'
              omega

theorem runTwo_profiles_filter (uid u : String) :
    ∀ (sched : List Bool) (pc0 pc1 : GocPC) (g : GState),
      (((runTwo uid sched (pc0, pc1, g)).2.2.store.profiles.filter
          (fun p => p.id = u)).length)
        = ((g.store.profiles.filter (fun p => p.id = u)).length)
  | [], pc0, pc1, g => by simp [runTwo]
  | b :: rest, pc0, pc1, g => by
      cases b with
      | false =>
          rw [runTwo_cons_false]
          cases hsg : gocStep uid pc0 g with
          | mk pc0' g' =>
              dsimp only
              have hstep := gocStep_profiles_filter uid u pc0 g
              rw [hsg] at hstep
              dsimp only at hstep
              have ih := runTwo_profiles_filter uid u rest pc0' pc1 g'
              omega
      | true =>
          rw [runTwo_cons_true]
          cases hsg : gocStep uid pc1 g with
          | mk pc1' g' =>
              dsimp only
              have hstep := gocStep_profiles_filter uid u pc1 g
              rw [hsg] at hstep
              dsimp only at hstep
              have ih := runTwo_profiles_filter uid u rest pc0 pc1' g'
              omega

/-- C4 (counterexample): the interleaving in which both calls run their
profile select before either persists makes `stripe.customers.create`
fire twice — two billing customers for one user — while running the two
calls to completion one after the other creates only one. -/
theorem C4_counterexample :
    (runTwo "u1" [false, true, false, false, true, true]
        (GocPC.start, GocPC.start,
          ⟨⟨true, [⟨"u1", some "e", none, "free"⟩], []⟩, 0, []⟩)).2.2.created.length = 2
    ∧ (getOrCreateStripeCustomer "u1"
        ((getOrCreateStripeCustomer "u1"
          ⟨⟨true, [⟨"u1", some "e", none, "free"⟩], []⟩, 0, []⟩).2)).2.created.length
      = 1 := by decide

/-- C4 (amended): under every interleaving of two concurrent
`getOrCreateStripeCustomer("u_1")` calls the store keeps exactly one
profile row for the user (the update never inserts), but nothing stops
both calls from creating a billing customer, so up to two Stripe
customers may exist afterwards, with the later update overwriting the
persisted identifier. -/
theorem C4_concurrent_resolution (sched : List Bool) :
    ((runTwo "u1" sched (GocPC.start, GocPC.start,
        ⟨⟨true, [⟨"u1", some "e", none, "free"⟩], []⟩, 0, []⟩)).2.2.store.profiles.filter
          (fun p => p.id = "u1")).length = 1
    ∧ (runTwo "u1" sched (GocPC.start, GocPC.start,
        ⟨⟨true, [⟨"u1", some "e", none, "free"⟩], []⟩, 0, []⟩)).2.2.created.length ≤ 2 := by
  constructor
  · rw [runTwo_profiles_filter]
    decide
  · have h := runTwo_created_le "u1" sched GocPC.start GocPC.start
      ⟨⟨true, [⟨"u1", some "e", none, "free"⟩], []⟩, 0, []⟩
    have h0 := gocCost_le_one (runTwo "u1" sched (GocPC.start, GocPC.start,
      ⟨⟨true, [⟨"u1", some "e", none, "free"⟩], []⟩, 0, []⟩)).1
    have h1 := gocCost_le_one (runTwo "u1" sched (GocPC.start, GocPC.start,
      ⟨⟨true, [⟨"u1", some "e", none, "free"⟩], []⟩, 0, []⟩)).2.1
    simp only [show gocCost GocPC.start = 0 from rfl, List.length_nil] at h
    omega

theorem length_freshCustomerId (n : Nat) : (freshCustomerId n).length = 4 + n := by
  unfold freshCustomerId
  rw [String.length_append]
  show "cus_".length + (List.replicate n 'x').length = 4 + n
  rw [List.length_replicate, show "cus_".length = 4 from rfl]

/-- Distinct creation-counter values give distinct provider ids. -/
theorem freshCustomerId_injective (m n : Nat) (h : freshCustomerId m = freshCustomerId n) :
    m = n := by
  have hl := congrArg String.length h
  rw [length_freshCustomerId, length_freshCustomerId] at hl
  omega

/-- One full `getOrCreateStripeCustomer` run for a user with no profile
row: the select errors (`data: null`), a Stripe customer is created, and
the persisting update matches no row, leaving the store untouched. -/
theorem getOrCreate_ghost (uid : String) (g : GState)
    (h : ∀ p ∈ g.store.profiles, ¬ p.id = uid) :
    (getOrCreateStripeCustomer uid g).1 = freshCustomerId g.nextCustomer
    ∧ (getOrCreateStripeCustomer uid g).2.store = g.store
    ∧ (getOrCreateStripeCustomer uid g).2.nextCustomer = g.nextCustomer + 1
    ∧ (getOrCreateStripeCustomer uid g).2.created
        = g.created ++ [freshCustomerId g.nextCustomer] := by
  have hsel : selectProfileById g.store uid = none := by
    unfold selectProfileById
    have hfil : g.store.profiles.filter (fun p => p.id = uid) = [] :=
      List.filter_eq_nil_iff.2 (by intro p hp; simpa using h p hp)
    by_cases hav : g.store.available <;> simp [hav, hfil, singleProfile]
  unfold getOrCreateStripeCustomer stripeCreateCustomer
  rw [hsel]
  refine ⟨rfl, ?_, rfl, rfl⟩
  show updateProfileCustomer g.store uid (freshCustomerId g.nextCustomer) = g.store
  exact updateProfileCustomer_noop g.store uid _ h

/-- C10: for a user identifier with no profiles row, each call creates a
fresh billing customer whose id is returned but never persisted (the
update matches no row), so two successive calls return two distinct
customer ids, leave the store unchanged, and leave two customers behind
at the provider. -/
theorem C10_unpersisted_customer (uid : String) (g : GState)
    (h : ∀ p ∈ g.store.profiles, ¬ p.id = uid) :
    (getOrCreateStripeCustomer uid g).1
        ≠ (getOrCreateStripeCustomer uid (getOrCreateStripeCustomer uid g).2).1
    ∧ (getOrCreateStripeCustomer uid g).2.store = g.store
    ∧ (getOrCreateStripeCustomer uid (getOrCreateStripeCustomer uid g).2).2.store = g.store
    ∧ (getOrCreateStripeCustomer uid (getOrCreateStripeCustomer uid g).2).2.created
        = g.created ++ [(getOrCreateStripeCustomer uid g).1,
            (getOrCreateStripeCustomer uid (getOrCreateStripeCustomer uid g).2).1] := by
  obtain ⟨hc1, hst1, hn1, hcr1⟩ := getOrCreate_ghost uid g h
  have h2 : ∀ p ∈ (getOrCreateStripeCustomer uid g).2.store.profiles, ¬ p.id = uid := by
    rw [hst1]; exact h
  obtain ⟨hc2, hst2, hn2, hcr2⟩ := getOrCreate_ghost uid _ h2
  refine ⟨?_, hst1, by rw [hst2, hst1], ?_⟩
  · rw [hc1, hc2, hn1]
    intro heq
    have := freshCustomerId_injective _ _ heq
    omega
  · rw [hcr2, hcr1, hc1, hc2, hn1]
    simp

/-- Witness for C10: two calls on the empty store return distinct ids. -/
theorem C10_unpersisted_customer_witness :
    (getOrCreateStripeCustomer "u1" ⟨⟨true, [], []⟩, 0, []⟩).1
      ≠ (getOrCreateStripeCustomer "u1"
          (getOrCreateStripeCustomer "u1" ⟨⟨true, [], []⟩, 0, []⟩).2).1 :=
  (C10_unpersisted_customer "u1" ⟨⟨true, [], []⟩, 0, []⟩ (by decide)).1
